/-
Verification of the tabular aggregation / resampling core of the
solar-challenge dashboard (`app/utils.py`).

The embedding models a pandas `DataFrame` as an explicit column list plus a
list of rows; each row is a timestamp (the `Timestamp` index produced by
`read_csv(..., index_col='Timestamp', parse_dates=True)`) together with an
association list of named cells.  Numeric cells are exact rationals; a cell
that pandas would hold as `NaN` is simply absent from a row's association
list, and aggregate results that pandas would report as `NaN` (mean of no
values, sample standard deviation of fewer than two values) are `none`.
The sample standard deviation column is carried as the sample *variance*
(its square), which keeps the development inside `ℚ`; the square root is
strictly monotone on nonnegative rationals, so nothing observable is lost.

The data directory is modelled as a function from file names to a read
outcome: file missing (`FileNotFoundError`), unreadable/malformed (any other
exception raised by `read_csv`), or a successfully parsed frame.  Streamlit
calls (`st.error`, figure construction, titles) are presentation-layer side
effects and are not part of the modelled values; `generate_timeseries_plot`
is modelled by the data series its figure would display.
-/
import Mathlib

/-- A cell value: a numeric measurement or a string (the country label). -/
inductive Val where
  | num (q : ℚ)
  | str (s : String)
deriving DecidableEq, Repr

/-- A parsed timestamp: the calendar day (as an integer day number) and the
time of day within it.  `resample('D')` buckets by `day` alone. -/
structure Timestamp where
  day : Int
  tod : Nat
deriving DecidableEq, Repr

/-- Association-list cell lookup (first match), i.e. `row[col]`;
`none` models a `NaN`/absent cell. -/
def getCell : List (String × Val) → String → Option Val
  | [], _ => none
  | (k, w) :: rest, c => if k = c then some w else getCell rest c

/-- Association-list cell update: overwrite the existing binding for `c`
or append one, i.e. the per-row effect of `df[c] = v`. -/
def setCell : List (String × Val) → String → Val → List (String × Val)
  | [], c, v => [(c, v)]
  | (k, w) :: rest, c, v =>
      if k = c then (c, v) :: rest else (k, w) :: setCell rest c v

/-- One `MeasurementRecord`: the timestamp index value plus named cells. -/
structure Row where
  ts : Timestamp
  cells : List (String × Val)
deriving DecidableEq, Repr

/-- `row[col]` as an `Option`. -/
def Row.get (r : Row) (c : String) : Option Val :=
  getCell r.cells c

/-- `row[col] = v`. -/
def Row.set (r : Row) (c : String) (v : Val) : Row :=
  ⟨r.ts, setCell r.cells c v⟩

/-- `row[col]` when it holds a number; `none` for `NaN`, absent or
non-numeric cells (aggregations skip those). -/
def Row.getNum (r : Row) (c : String) : Option ℚ :=
  match r.get c with
  | some (.num q) => some q
  | _ => none

/-- A pandas `DataFrame`: a column list and the rows, in index order. -/
structure DataFrame where
  cols : List String
  rows : List Row
deriving DecidableEq, Repr

/-- `pd.DataFrame()`. -/
def DataFrame.empty : DataFrame := ⟨[], []⟩

/-- `df.empty`: true when either axis has length zero. -/
def DataFrame.isEmpty (df : DataFrame) : Bool :=
  df.rows.isEmpty || df.cols.isEmpty

/-- `df[c] = v` for a constant `v`: sets the cell on every row and adds the
column (at the end) when it was not already present. -/
def DataFrame.setCol (df : DataFrame) (c : String) (v : Val) : DataFrame :=
  ⟨if c ∈ df.cols then df.cols else df.cols ++ [c],
   df.rows.map (fun r => r.set c v)⟩

/-- Row-wise concatenation of two frames (`pd.concat` semantics for frames
sharing an index kind): rows of `a` then rows of `b`; columns are the
ordered union. -/
def DataFrame.append (a b : DataFrame) : DataFrame :=
  ⟨a.cols ++ b.cols.filter (fun c => !a.cols.contains c), a.rows ++ b.rows⟩

/-- `pd.concat(dfs)` over a list of frames. -/
def concatAll (dfs : List DataFrame) : DataFrame :=
  dfs.foldl DataFrame.append DataFrame.empty

/-- Outcome of `pd.read_csv` on one file of the data directory. -/
inductive ReadResult where
  | missing
  | corrupt
  | ok (df : DataFrame)
deriving DecidableEq, Repr

/-- The backing data directory: what reading each file name yields. -/
abbrev DataDir := String → ReadResult

/-- Lexicographic comparison of strings by Unicode code point (Python's
`str` order, which pandas uses to sort group keys). -/
def strLeB : List Char → List Char → Bool
  | [], _ => true
  | _ :: _, [] => false
  | c :: cs, d :: ds =>
    if c.val.toNat < d.val.toNat then true
    else if d.val.toNat < c.val.toNat then false
    else strLeB cs ds

/-- String comparison used for the `groupby` key sort. -/
def strLe (a b : String) : Bool :=
  strLeB a.data b.data

/-- Distinct elements of a list, first occurrences kept, skipping anything
already in `seen` (the distinct group keys of `groupby`). -/
def dedupKeys (seen : List String) : List String → List String
  | [] => []
  | s :: rest =>
    if s ∈ seen then dedupKeys seen rest else s :: dedupKeys (s :: seen) rest

/-- Python `str.capitalize()`: first character upper-cased, the rest
lower-cased. -/
def pyCapitalize (s : String) : String :=
  match s.data with
  | [] => ""
  | c :: cs => String.mk (c.toUpper :: cs.map Char.toLower)

/-- `load_country_data(country_name_lower)` from `app/utils.py`: read
`<name>_clean.csv`, tag every record with the capitalized country name; on
`FileNotFoundError` or any other exception return an empty frame (the
`st.error` message is presentation-layer). -/
def load_country_data (dir : DataDir) (country_name_lower : String) : DataFrame :=
  match dir (country_name_lower ++ "_clean.csv") with
  | .ok df => df.setCol "Country" (.str (pyCapitalize country_name_lower))
  | .missing => DataFrame.empty
  | .corrupt => DataFrame.empty

/-- `load_all_selected_data(selected_countries_lower)` from `app/utils.py`:
the `all_dfs` list: the loads of each selected country, in order, keeping
only the non-empty results. -/
def nonEmptyLoads (dir : DataDir) (names : List String) : List DataFrame :=
  (names.map (load_country_data dir)).filter (fun d => !d.isEmpty)

/-- `load_all_selected_data(selected_countries_lower)` from `app/utils.py`:
load each selected country in order, keep the non-empty results, and
concatenate them; an empty selection or all-empty loads yield an empty
frame. -/
def load_all_selected_data (dir : DataDir) (selected_countries_lower : List String) :
    DataFrame :=
  if selected_countries_lower = [] then DataFrame.empty
  else if nonEmptyLoads dir selected_countries_lower = [] then DataFrame.empty
  else concatAll (nonEmptyLoads dir selected_countries_lower)

/-- The country label of a row, when its `Country` cell is a string. -/
def labelOf (r : Row) : Option String :=
  match r.get "Country" with
  | some (.str s) => some s
  | _ => none

/-- The distinct country labels of a frame, in first-appearance order. -/
def dfLabels (df : DataFrame) : List String :=
  dedupKeys [] (df.rows.filterMap labelOf)

/-- The `GHI` values of the group of rows labelled `c` (the column selected
by `groupby('Country')['GHI']`), in row order, `NaN`s skipped. -/
def groupVals (df : DataFrame) (c : String) : List ℚ :=
  (df.rows.filter (fun r => labelOf r = some c)).filterMap
    (fun r => r.getNum "GHI")

/-- pandas `mean`: arithmetic mean of the non-null values, `NaN` (`none`)
when there are none. -/
def meanQ (vs : List ℚ) : Option ℚ :=
  if vs = [] then none else some (vs.sum / vs.length)

/-- pandas `median`: middle element of the sorted non-null values, or the
mean of the two middle elements; `NaN` when there are none. -/
def medianQ (vs : List ℚ) : Option ℚ :=
  if vs = [] then none
  else
    let s := vs.insertionSort (· ≤ ·)
    some (if vs.length % 2 = 1 then s.getD (vs.length / 2) 0
          else (s.getD (vs.length / 2 - 1) 0 + s.getD (vs.length / 2) 0) / 2)

/-- pandas `std` squared: the `ddof=1` sample variance, `NaN` when fewer
than two non-null values.  (`std` itself is the square root of this.) -/
def varQ (vs : List ℚ) : Option ℚ :=
  if vs.length < 2 then none
  else
    some (((vs.map (fun x => (x - vs.sum / vs.length) ^ 2)).sum) /
      ((vs.length : ℚ) - 1))

/-- One row of the ranked summary table produced by
`get_top_regions_table`. -/
structure SummaryRow where
  rank : Nat
  country : String
  mean : Option ℚ
  med : Option ℚ
  varS : Option ℚ
deriving DecidableEq, Repr

/-- The aggregation row for one country group (before sorting/ranking). -/
def mkSummaryRow (df : DataFrame) (c : String) : SummaryRow :=
  ⟨0, c, meanQ (groupVals df c), medianQ (groupVals df c), varQ (groupVals df c)⟩

/-- Descending comparison on `mean` values with `NaN` placed last
(`sort_values(by='mean', ascending=False)`, default `na_position='last'`). -/
def mgeB : Option ℚ → Option ℚ → Bool
  | some x, some y => y ≤ x
  | _, none => true
  | none, some _ => false

/-- The sort relation used on summary rows. -/
def rowGE (a b : SummaryRow) : Prop := mgeB a.mean b.mean = true

instance : DecidableRel rowGE := fun _ _ => instDecidableEqBool _ _

/-- Re-number the rows `i, i+1, ...` (the `Rank = index + 1` column after
`reset_index(drop=True)`). -/
def reindex : List SummaryRow → Nat → List SummaryRow
  | [], _ => []
  | r :: rs, i => { r with rank := i } :: reindex rs (i + 1)

/-- The aggregation rows of `groupby('Country')['GHI'].agg(...)`: one row
per distinct country label, keys sorted ascending (pandas `groupby`
default). -/
def summaryRows (df : DataFrame) : List SummaryRow :=
  ((dfLabels df).insertionSort (fun a b => strLe a b = true)).map (mkSummaryRow df)

/-- `get_top_regions_table(df_combined)` from `app/utils.py`: guard on
emptiness and presence of the `GHI` and `Country` columns; group by country
label, aggregate mean/median/std of `GHI`, sort descending by mean, and
assign `Rank = index + 1`.  The sort is modelled as a stable descending
sort; the source's `sort_values` leaves the order of tied means
unspecified. -/
def get_top_regions_table (df_combined : DataFrame) : List SummaryRow :=
  if df_combined.isEmpty = true ∨ "GHI" ∉ df_combined.cols ∨
      "Country" ∉ df_combined.cols then []
  else reindex ((summaryRows df_combined).insertionSort rowGE) 1

/-- The `metric` values of the rows whose timestamp falls on calendar day
`d` (`NaN`s skipped), in row order. -/
def dayVals (df : DataFrame) (metric : String) (d : Int) : List ℚ :=
  (df.rows.filter (fun r => r.ts.day = d)).filterMap (fun r => r.getNum metric)

/-- The consecutive calendar days `d0, ..., d1` (see `resampleDailyMean`). -/
def dayRange (d0 d1 : Int) : List Int :=
  (List.range (d1 - d0 + 1).toNat).map (fun i : Nat => d0 + (i : Int))

/-- `df[metric].resample('D').mean()`: one output point per calendar day
from the earliest to the latest day present in the index (pandas fills
interior gap days, with a `NaN` mean), each holding the arithmetic mean of
that day's non-null values. -/
def resampleDailyMean (df : DataFrame) (metric : String) : List (Int × Option ℚ) :=
  match df.rows.map (fun r => r.ts.day) with
  | [] => []
  | d :: ds =>
    (dayRange (ds.foldl min d) (ds.foldl max d)).map
      (fun x => (x, meanQ (dayVals df metric x)))

/-- `generate_timeseries_plot(df_country, metric)` from `app/utils.py`,
modelled by the data series its figure displays: guard on emptiness and
presence of `metric`, then resample to the daily mean.  (The title lookup
and `px.line` call are presentation-layer; the `try/except` around
`resample` cannot fire in the model, where the index is always made of
parsed timestamps.) -/
def generate_timeseries_plot (df_country : DataFrame) (metric : String) :
    Option (List (Int × Option ℚ)) :=
  if df_country.isEmpty = true ∨ metric ∉ df_country.cols then none
  else some (resampleDailyMean df_country metric)

/-! ### Concrete sample data used by the witnesses and counterexamples -/

/-- A data directory with no files at all. -/
def dirAllMissing : DataDir := fun _ => ReadResult.missing

/-- A parsed two-record frame whose `GHI` cells are all missing. -/
def dfTwoRows : DataFrame := ⟨["GHI"], [⟨⟨0, 0⟩, []⟩, ⟨⟨0, 1⟩, []⟩]⟩

/-- A directory holding only `benin_clean.csv`. -/
def dirBenin : DataDir :=
  fun k => if k = "benin_clean.csv" then ReadResult.ok dfTwoRows else ReadResult.missing

/-- A parsed frame that (contrary to the interface assumption) ships its
own `Country` column. -/
def dfBogus : DataFrame := ⟨["Country"], [⟨⟨0, 0⟩, [("Country", Val.str "Bogus")]⟩]⟩

/-- A directory whose `benin_clean.csv` ships its own `Country` column. -/
def dirBogus : DataDir :=
  fun k => if k = "benin_clean.csv" then ReadResult.ok dfBogus else ReadResult.missing

/-- A parsed non-empty frame backing the empty-string identifier. -/
def dfNoName : DataFrame := ⟨["GHI"], [⟨⟨0, 0⟩, []⟩]⟩

/-- A directory holding only `_clean.csv`, the file the empty-string
identifier resolves to. -/
def dirNoName : DataDir :=
  fun k => if k = "_clean.csv" then ReadResult.ok dfNoName else ReadResult.missing

/-- A combined frame with country `X` of mean GHI 500 and country `Y` of
mean GHI 300. -/
def dfXY : DataFrame :=
  ⟨["GHI", "Country"],
   [⟨⟨0, 0⟩, [("GHI", Val.num 500), ("Country", Val.str "X")]⟩,
    ⟨⟨0, 1⟩, [("GHI", Val.num 300), ("Country", Val.str "Y")]⟩]⟩

/-- A single-country frame with two records on the same calendar day. -/
def dfOneDay : DataFrame :=
  ⟨["GHI"], [⟨⟨5, 0⟩, [("GHI", Val.num 2)]⟩, ⟨⟨5, 7⟩, [("GHI", Val.num 4)]⟩]⟩

/-- The rank-free content of a summary row. -/
def stripRank (r : SummaryRow) : String × Option ℚ × Option ℚ × Option ℚ :=
  (r.country, r.mean, r.med, r.varS)

instance : IsTotal SummaryRow rowGE where
  total a b := by
    unfold rowGE mgeB
    rcases a.mean with _ | x <;> rcases b.mean with _ | y <;> simp
    exact le_total y x

instance : IsTrans SummaryRow rowGE where
  trans a b c := by
    unfold rowGE mgeB
    rcases a.mean with _ | x <;> rcases b.mean with _ | y <;>
      rcases c.mean with _ | z <;> simp
    exact fun h1 h2 => le_trans h2 h1

/-! ### Basic lemmas about cells, rows and frames -/

theorem getCell_setCell_self (cells : List (String × Val)) (c : String) (v : Val) :
    getCell (setCell cells c v) c = some v := by
  induction cells with
  | nil => simp [setCell, getCell]
  | cons kv rest ih =>
    obtain ⟨k, w⟩ := kv
    by_cases h : k = c
    · simp [setCell, h, getCell]
    · simp [setCell, h, getCell, ih]

theorem Row.get_set_self (r : Row) (c : String) (v : Val) :
    (r.set c v).get c = some v :=
  getCell_setCell_self r.cells c v

theorem DataFrame.setCol_cols_ne_nil (df : DataFrame) (c : String) (v : Val) :
    (df.setCol c v).cols ≠ [] := by
  unfold DataFrame.setCol
  by_cases h : c ∈ df.cols
  · simpa [h] using List.ne_nil_of_mem h
  · simp [h]

theorem DataFrame.setCol_isEmpty (df : DataFrame) (c : String) (v : Val) :
    (df.setCol c v).isEmpty = df.rows.isEmpty := by
  unfold DataFrame.isEmpty
  have h1 : (df.setCol c v).cols.isEmpty = false :=
    List.isEmpty_eq_false.mpr (df.setCol_cols_ne_nil c v)
  have h2 : (df.setCol c v).rows.isEmpty = df.rows.isEmpty := by
    show (df.rows.map _).isEmpty = df.rows.isEmpty
    cases hrows : df.rows <;> simp
  rw [h1, h2, Bool.or_false]

theorem pyCapitalize_ne_empty {s : String} (h : s ≠ "") : pyCapitalize s ≠ "" := by
  obtain ⟨data⟩ := s
  cases data with
  | nil => exact absurd rfl h
  | cons c cs =>
    intro h2
    rw [String.ext_iff] at h2
    simp [pyCapitalize] at h2

/-! ### Lemmas about the Loader -/

theorem load_country_data_ok {dir : DataDir} {n : String} {df : DataFrame}
    (h : dir (n ++ "_clean.csv") = .ok df) :
    load_country_data dir n = df.setCol "Country" (.str (pyCapitalize n)) := by
  unfold load_country_data
  rw [h]

theorem load_country_data_label (dir : DataDir) (n : String) :
    ∀ r ∈ (load_country_data dir n).rows,
      r.get "Country" = some (.str (pyCapitalize n)) := by
  intro r hr
  unfold load_country_data at hr
  rcases h : dir (n ++ "_clean.csv") with _ | _ | df <;> rw [h] at hr
  · simp [DataFrame.empty] at hr
  · simp [DataFrame.empty] at hr
  · simp only [DataFrame.setCol, List.mem_map] at hr
    obtain ⟨r0, _, rfl⟩ := hr
    exact r0.get_set_self "Country" _

/-! ### Lemmas about concatenation -/

theorem DataFrame.append_empty_left (d : DataFrame) :
    DataFrame.append DataFrame.empty d = d := by
  obtain ⟨cols, rows⟩ := d
  simp [DataFrame.append, DataFrame.empty, List.filter_eq_self]

theorem concatAll_rows (dfs : List DataFrame) :
    (concatAll dfs).rows = (dfs.map DataFrame.rows).flatten := by
  suffices h : ∀ acc : DataFrame,
      (dfs.foldl DataFrame.append acc).rows =
        acc.rows ++ (dfs.map DataFrame.rows).flatten by
    simpa [concatAll, DataFrame.empty] using h DataFrame.empty
  induction dfs with
  | nil => intro acc; simp
  | cons d ds ih =>
    intro acc
    simp [List.foldl_cons, ih, DataFrame.append]

theorem concatAll_singleton (d : DataFrame) : concatAll [d] = d := by
  simpa [concatAll, List.foldl_cons] using DataFrame.append_empty_left d

theorem load_all_rows (dir : DataDir) (names : List String) :
    (load_all_selected_data dir names).rows =
      ((nonEmptyLoads dir names).map DataFrame.rows).flatten := by
  unfold load_all_selected_data
  by_cases h : names = []
  · subst h
    simp [DataFrame.empty, nonEmptyLoads]
  · rw [if_neg h]
    by_cases h2 : nonEmptyLoads dir names = []
    · rw [if_pos h2, h2]
      simp [DataFrame.empty]
    · rw [if_neg h2]
      exact concatAll_rows _

/-! ### Lemmas about distinct keys -/

theorem mem_dedupKeys (l : List String) :
    ∀ (seen : List String) (x : String),
      x ∈ dedupKeys seen l ↔ x ∈ l ∧ x ∉ seen := by
  induction l with
  | nil => intro seen x; simp [dedupKeys]
  | cons s rest ih =>
    intro seen x
    by_cases hs : s ∈ seen
    · rw [dedupKeys, if_pos hs, ih]
      simp only [List.mem_cons]
      constructor
      · rintro ⟨hx, hns⟩
        exact ⟨Or.inr hx, hns⟩
      · rintro ⟨rfl | hx, hns⟩
        · exact absurd hs hns
        · exact ⟨hx, hns⟩
    · rw [dedupKeys, if_neg hs]
      simp only [List.mem_cons, ih, List.mem_cons, not_or]
      constructor
      · rintro (rfl | ⟨h1, h2, h3⟩)
        · exact ⟨Or.inl rfl, hs⟩
        · exact ⟨Or.inr h1, h3⟩
      · rintro ⟨rfl | hx, hns⟩
        · exact Or.inl rfl
        · by_cases hxs : x = s
          · exact Or.inl hxs
          · exact Or.inr ⟨hx, hxs, hns⟩

theorem mem_dfLabels {df : DataFrame} {x : String} :
    x ∈ dfLabels df ↔ x ∈ df.rows.filterMap labelOf := by
  simp [dfLabels, mem_dedupKeys]

/-! ### Claim C3: the Loader never lets a failure escape -/

/-- C3: for every country identifier whose backing source is absent
(`FileNotFoundError`) or unreadable/malformed (any other exception),
`load_country_data` returns an empty `CountryDataset`; both handlers return
`pd.DataFrame()`, so no exception escapes the load boundary. -/
theorem load_country_data_failure (dir : DataDir) (name : String)
    (h : dir (name ++ "_clean.csv") = ReadResult.missing ∨
      dir (name ++ "_clean.csv") = ReadResult.corrupt) :
    load_country_data dir name = DataFrame.empty := by
  unfold load_country_data
  rcases h with h | h <;> rw [h]

theorem load_country_data_failure_witness :
    (dirAllMissing ("togo" ++ "_clean.csv") = ReadResult.missing ∨
      dirAllMissing ("togo" ++ "_clean.csv") = ReadResult.corrupt)
    ∧ load_country_data dirAllMissing "togo" = DataFrame.empty :=
  ⟨Or.inl rfl, load_country_data_failure dirAllMissing "togo" (Or.inl rfl)⟩

/-! ### Claim C8: successful loads are non-empty and fully labelled -/

/-- C8: for every non-empty country identifier whose backing source parses
to a frame with at least one record, `load_country_data` returns a
non-empty `CountryDataset` in which every record's country label equals the
capitalized identifier. -/
theorem load_country_data_success (dir : DataDir) (name : String) (df : DataFrame)
    (_hname : name ≠ "") (hread : dir (name ++ "_clean.csv") = ReadResult.ok df)
    (hrows : df.rows ≠ []) :
    (load_country_data dir name).isEmpty = false
    ∧ ∀ r ∈ (load_country_data dir name).rows,
        r.get "Country" = some (Val.str (pyCapitalize name)) := by
  refine ⟨?_, load_country_data_label dir name⟩
  rw [load_country_data_ok hread, DataFrame.setCol_isEmpty]
  exact List.isEmpty_eq_false.mpr hrows

theorem load_country_data_success_witness :
    ("benin" ≠ "" ∧ dirBenin ("benin" ++ "_clean.csv") = ReadResult.ok dfTwoRows
      ∧ dfTwoRows.rows ≠ [] ∧ pyCapitalize "benin" = "Benin")
    ∧ ((load_country_data dirBenin "benin").isEmpty = false
      ∧ ∀ r ∈ (load_country_data dirBenin "benin").rows,
          r.get "Country" = some (Val.str (pyCapitalize "benin"))) :=
  ⟨⟨by decide, rfl, by decide, by decide⟩,
   load_country_data_success dirBenin "benin" dfTwoRows (by decide) rfl (by decide)⟩

/-! ### Claim C10: the Loader overwrites any country column shipped in
the file -/

/-- C10: when the backing file parses to a frame `df` — including one that,
contrary to the interface assumption, ships its own `Country` column — the
loaded rows are exactly `df`'s rows with the `Country` cell overwritten by
the capitalized identifier, so the label lookup never yields the file's
own value. -/
theorem load_country_data_overwrites (dir : DataDir) (name : String)
    (df : DataFrame) (hread : dir (name ++ "_clean.csv") = ReadResult.ok df) :
    (load_country_data dir name).rows =
      df.rows.map (fun r => r.set "Country" (Val.str (pyCapitalize name)))
    ∧ ∀ r ∈ df.rows,
        (r.set "Country" (Val.str (pyCapitalize name))).get "Country" =
          some (Val.str (pyCapitalize name)) := by
  refine ⟨?_, fun r _ => r.get_set_self "Country" _⟩
  rw [load_country_data_ok hread]
  rfl

theorem load_country_data_overwrites_witness :
    (dirBogus ("benin" ++ "_clean.csv") = ReadResult.ok dfBogus
      ∧ (dfBogus.rows.map (fun r => r.get "Country") = [some (Val.str "Bogus")])
      ∧ (load_country_data dirBogus "benin").rows.map (fun r => r.get "Country") =
          [some (Val.str "Benin")])
    ∧ ((load_country_data dirBogus "benin").rows =
        dfBogus.rows.map (fun r => r.set "Country" (Val.str (pyCapitalize "benin")))
      ∧ ∀ r ∈ dfBogus.rows,
          (r.set "Country" (Val.str (pyCapitalize "benin"))).get "Country" =
            some (Val.str (pyCapitalize "benin"))) :=
  ⟨⟨rfl, by decide, by decide⟩,
   load_country_data_overwrites dirBogus "benin" dfBogus rfl⟩

/-! ### Claim C2: combine is exactly ordered concatenation -/

/-- C2: the records of `load_all_selected_data` are exactly the
concatenation, in input order, of the per-country loaded record lists that
were non-empty — no cross-country re-sorting and no deduplication, each
record kept as loaded (the label having been attached by the Loader);
`combine([])` is empty, and `combine([a])` for a country that loads
non-empty is exactly that country's loaded frame. -/
theorem load_all_selected_data_concat (dir : DataDir) (names : List String) :
    (load_all_selected_data dir names).rows =
      ((nonEmptyLoads dir names).map DataFrame.rows).flatten
    ∧ load_all_selected_data dir [] = DataFrame.empty
    ∧ ∀ a : String, (load_country_data dir a).isEmpty = false →
        load_all_selected_data dir [a] = load_country_data dir a := by
  refine ⟨load_all_rows dir names, by simp [load_all_selected_data], ?_⟩
  intro a h
  have hne : nonEmptyLoads dir [a] = [load_country_data dir a] := by
    simp [nonEmptyLoads, h]
  simp [load_all_selected_data, hne, concatAll_singleton]

theorem load_all_selected_data_concat_witness :
    (load_country_data dirBenin "benin").isEmpty = false
    ∧ load_all_selected_data dirBenin ["benin"] = load_country_data dirBenin "benin" :=
  ⟨by decide,
   (load_all_selected_data_concat dirBenin ["benin"]).2.2 "benin" (by decide)⟩

/-! ### Claim C6: combine tolerates partial failure -/

theorem nonEmptyLoads_filter (dir : DataDir) (names : List String) :
    nonEmptyLoads dir
        (names.filter (fun n => !(load_country_data dir n).isEmpty)) =
      nonEmptyLoads dir names := by
  unfold nonEmptyLoads
  rw [List.filter_map, List.filter_map, List.filter_filter]
  congr 1
  apply List.filter_congr
  intro n _
  simp [Function.comp]

/-- C6: `load_all_selected_data` skips every country whose load came back
empty — it returns the same frame as if those identifiers had not been
selected at all, so one failed country never aborts the others — and when
every selected country loads empty (or nothing is selected) the result is
the empty frame rather than an error. -/
theorem load_all_selected_data_skips (dir : DataDir) (names : List String) :
    load_all_selected_data dir names =
      load_all_selected_data dir
        (names.filter (fun n => !(load_country_data dir n).isEmpty))
    ∧ ((∀ n ∈ names, (load_country_data dir n).isEmpty = true) →
        load_all_selected_data dir names = DataFrame.empty) := by
  constructor
  · by_cases h0 : names = []
    · subst h0; rfl
    · by_cases h1 : names.filter (fun n => !(load_country_data dir n).isEmpty) = []
      · have h2 : nonEmptyLoads dir names = [] := by
          rw [← nonEmptyLoads_filter dir names, h1]
          rfl
        simp [load_all_selected_data, h0, h1, h2]
      · have h0' : names ≠ [] := h0
        simp [load_all_selected_data, h0', h1, nonEmptyLoads_filter dir names]
  · intro hall
    have h2 : nonEmptyLoads dir names = [] := by
      rw [nonEmptyLoads, List.filter_eq_nil_iff]
      intro d hd
      rw [List.mem_map] at hd
      obtain ⟨n, hn, rfl⟩ := hd
      simp [hall n hn]
    by_cases h0 : names = []
    · subst h0; rfl
    · simp [load_all_selected_data, h0, h2]

theorem load_all_selected_data_skips_witness :
    (∀ n ∈ ["benin", "togo"], (load_country_data dirAllMissing n).isEmpty = true)
    ∧ load_all_selected_data dirAllMissing ["benin", "togo"] = DataFrame.empty :=
  ⟨by decide,
   (load_all_selected_data_skips dirAllMissing ["benin", "togo"]).2 (by decide)⟩

/-! ### Claim C9: labels of combined records -/

/-- C9 counterexample: with the empty-string identifier and a matching
backing source (`_clean.csv`), the combined dataset contains a record whose
country label is the empty string — `"".capitalize()` is `""` — so it is
not the case that every record of every combine result carries a non-empty
label. -/
theorem load_all_empty_label_cex :
    (load_all_selected_data dirNoName [""]).rows.map (fun r => r.get "Country") =
      [some (Val.str "")] := by decide

/-- C9 (amended): for every sequence of *non-empty* country identifiers,
every record of the combined dataset carries a non-empty country label
(namely the capitalized identifier of its country of origin). -/
theorem load_all_label_nonempty (dir : DataDir) (names : List String)
    (h : ∀ n ∈ names, n ≠ "") :
    ∀ r ∈ (load_all_selected_data dir names).rows,
      ∃ s, r.get "Country" = some (Val.str s) ∧ s ≠ "" := by
  intro r hr
  rw [load_all_rows, List.mem_flatten] at hr
  obtain ⟨l, hl, hrl⟩ := hr
  rw [List.mem_map] at hl
  obtain ⟨d, hd, rfl⟩ := hl
  have hd2 : d ∈ names.map (load_country_data dir) := List.mem_of_mem_filter hd
  rw [List.mem_map] at hd2
  obtain ⟨n, hn, rfl⟩ := hd2
  exact ⟨pyCapitalize n, load_country_data_label dir n r hrl,
    pyCapitalize_ne_empty (h n hn)⟩

theorem load_all_label_nonempty_witness :
    (∀ n ∈ ["benin"], n ≠ "")
    ∧ ∀ r ∈ (load_all_selected_data dirBenin ["benin"]).rows,
        ∃ s, r.get "Country" = some (Val.str s) ∧ s ≠ "" :=
  ⟨by decide, load_all_label_nonempty dirBenin ["benin"] (by decide)⟩

/-! ### Lemmas for the Resampler -/

theorem foldl_min_le (ds : List Int) (d : Int) : ds.foldl min d ≤ d := by
  induction ds generalizing d with
  | nil => exact le_refl d
  | cons a as ih => exact le_trans (ih (min d a)) (min_le_left d a)

theorem foldl_min_le_mem (ds : List Int) (d : Int) :
    ∀ x ∈ ds, ds.foldl min d ≤ x := by
  induction ds generalizing d with
  | nil => intro x hx; exact absurd hx (List.not_mem_nil x)
  | cons a as ih =>
    intro x hx
    rcases List.mem_cons.mp hx with rfl | hx
    · exact le_trans (foldl_min_le as (min d x)) (min_le_right d x)
    · exact ih (min d a) x hx

theorem le_foldl_max (ds : List Int) (d : Int) : d ≤ ds.foldl max d := by
  induction ds generalizing d with
  | nil => exact le_refl d
  | cons a as ih => exact le_trans (le_max_left d a) (ih (max d a))

theorem le_foldl_max_mem (ds : List Int) (d : Int) :
    ∀ x ∈ ds, x ≤ ds.foldl max d := by
  induction ds generalizing d with
  | nil => intro x hx; exact absurd hx (List.not_mem_nil x)
  | cons a as ih =>
    intro x hx
    rcases List.mem_cons.mp hx with rfl | hx
    · exact le_trans (le_max_right d x) (le_foldl_max as (max d x))
    · exact ih (max d a) x hx

theorem foldl_min_const (ds : List Int) (d : Int) (h : ∀ x ∈ ds, x = d) :
    ds.foldl min d = d := by
  induction ds with
  | nil => rfl
  | cons a as ih =>
    have ha : a = d := h a (List.mem_cons_self a as)
    subst ha
    simp only [List.foldl_cons, min_self]
    exact ih (fun x hx => h x (List.mem_cons_of_mem a hx))

theorem foldl_max_const (ds : List Int) (d : Int) (h : ∀ x ∈ ds, x = d) :
    ds.foldl max d = d := by
  induction ds with
  | nil => rfl
  | cons a as ih =>
    have ha : a = d := h a (List.mem_cons_self a as)
    subst ha
    simp only [List.foldl_cons, max_self]
    exact ih (fun x hx => h x (List.mem_cons_of_mem a hx))

theorem mem_dayRange {d0 d1 x : Int} : x ∈ dayRange d0 d1 ↔ d0 ≤ x ∧ x ≤ d1 := by
  simp only [dayRange, List.mem_map, List.mem_range]
  constructor
  · rintro ⟨i, hi, rfl⟩
    omega
  · rintro ⟨h1, h2⟩
    exact ⟨(x - d0).toNat, by omega, by omega⟩

theorem dayRange_pairwise (d0 d1 : Int) : (dayRange d0 d1).Pairwise (· < ·) := by
  unfold dayRange
  refine List.Pairwise.map _ ?_ (List.pairwise_lt_range _)
  intro a b hab
  omega

theorem dayRange_self (d : Int) : dayRange d d = [d] := by
  unfold dayRange
  rw [show (d - d + 1).toNat = 1 by omega]
  simp [List.range_succ]

/-! ### Claim C7: the Resampler degrades to the null result -/

/-- C7: `generate_timeseries_plot` returns "no result" (`None`) whenever
the dataset is empty or the requested field is not a present column; in the
model the function is total, so every failure path degrades to the null
result rather than an uncaught exception. -/
theorem generate_timeseries_plot_guard (df : DataFrame) (metric : String)
    (h : df.isEmpty = true ∨ metric ∉ df.cols) :
    generate_timeseries_plot df metric = none := by
  unfold generate_timeseries_plot
  exact if_pos h

theorem generate_timeseries_plot_guard_witness :
    (DataFrame.empty.isEmpty = true ∨ "GHI" ∉ DataFrame.empty.cols)
    ∧ generate_timeseries_plot DataFrame.empty "GHI" = none :=
  ⟨Or.inl (by decide),
   generate_timeseries_plot_guard DataFrame.empty "GHI" (Or.inl (by decide))⟩

/-! ### Claim C5: daily-mean resampling -/

/-- C5: for a non-empty dataset containing the requested field, the
resampled series buckets records by calendar day (time-of-day plays no
role: each point's value is the arithmetic mean of the field over exactly
the records of that day), is ordered by day strictly ascending, contains a
point for every record's day, and — when all records fall on one single
calendar day, as in the spec's example of records confined to day 1 — has
exactly one row.  (Interior days of the spanned range with no records get
a point with a missing mean: the gap-filling convention of the underlying
`resample('D')` primitive, which the spec leaves to the implementer.) -/
theorem generate_timeseries_plot_daily (df : DataFrame) (metric : String)
    (hrows : df.rows ≠ []) (hcol : metric ∈ df.cols) :
    ∃ s, generate_timeseries_plot df metric = some s
      ∧ s.Pairwise (fun a b => a.1 < b.1)
      ∧ (∀ p ∈ s, p.2 = meanQ (dayVals df metric p.1))
      ∧ (∀ r ∈ df.rows, ∃ m, (r.ts.day, m) ∈ s)
      ∧ ((∀ r ∈ df.rows, ∀ u ∈ df.rows, r.ts.day = u.ts.day) → s.length = 1) := by
  have hguard : ¬(df.isEmpty = true ∨ metric ∉ df.cols) := by
    push_neg
    constructor
    · simp [DataFrame.isEmpty, List.isEmpty_iff, hrows,
        List.ne_nil_of_mem hcol]
    · exact hcol
  cases hmap : df.rows.map (fun r => r.ts.day) with
  | nil => exact absurd (List.map_eq_nil_iff.mp hmap) hrows
  | cons d ds =>
    have hres : resampleDailyMean df metric =
        (dayRange (ds.foldl min d) (ds.foldl max d)).map
          (fun x => (x, meanQ (dayVals df metric x))) := by
      unfold resampleDailyMean
      rw [hmap]
    refine ⟨resampleDailyMean df metric, ?_, ?_, ?_, ?_, ?_⟩
    · unfold generate_timeseries_plot
      rw [if_neg hguard]
    · -- strictly ascending days
      rw [hres]
      refine List.Pairwise.map _ ?_ (dayRange_pairwise _ _)
      intro a b hab
      exact hab
    · -- each point is the mean over its day-bucket
      intro p hp
      rw [hres, List.mem_map] at hp
      obtain ⟨x, _, rfl⟩ := hp
      rfl
    · -- every record has a point for its calendar day
      intro r hr
      refine ⟨meanQ (dayVals df metric r.ts.day), ?_⟩
      rw [hres]
      apply List.mem_map_of_mem
      rw [mem_dayRange]
      have hmem : r.ts.day ∈ d :: ds := by
        rw [← hmap]
        exact List.mem_map_of_mem _ hr
      rcases List.mem_cons.mp hmem with heq | hmem2
      · rw [heq]
        exact ⟨foldl_min_le ds d, le_foldl_max ds d⟩
      · exact ⟨foldl_min_le_mem ds d _ hmem2, le_foldl_max_mem ds d _ hmem2⟩
    · -- a single-day dataset yields exactly one output row
      intro hone
      have hmemday : ∀ x ∈ d :: ds, ∃ r ∈ df.rows, r.ts.day = x := by
        intro x hxx
        rw [← hmap, List.mem_map] at hxx
        exact hxx
      obtain ⟨r0, hr0, hr0d⟩ := hmemday d (List.mem_cons_self d ds)
      have hds : ∀ x ∈ ds, x = d := by
        intro x hx
        obtain ⟨rx, hrx, hrxd⟩ := hmemday x (List.mem_cons_of_mem d hx)
        rw [← hrxd, hone rx hrx r0 hr0, hr0d]
      rw [hres, foldl_min_const ds d hds, foldl_max_const ds d hds, dayRange_self]
      rfl

theorem generate_timeseries_plot_daily_witness :
    (dfOneDay.rows ≠ [] ∧ "GHI" ∈ dfOneDay.cols
      ∧ ∀ r ∈ dfOneDay.rows, ∀ u ∈ dfOneDay.rows, r.ts.day = u.ts.day)
    ∧ ∃ s, generate_timeseries_plot dfOneDay "GHI" = some s
      ∧ s.Pairwise (fun a b => a.1 < b.1)
      ∧ (∀ p ∈ s, p.2 = meanQ (dayVals dfOneDay "GHI" p.1))
      ∧ (∀ r ∈ dfOneDay.rows, ∃ m, (r.ts.day, m) ∈ s)
      ∧ ((∀ r ∈ dfOneDay.rows, ∀ u ∈ dfOneDay.rows, r.ts.day = u.ts.day) →
          s.length = 1) :=
  ⟨⟨by decide, by decide, by decide⟩,
   generate_timeseries_plot_daily dfOneDay "GHI" (by decide) (by decide)⟩

/-! ### Lemmas for the summary table -/

theorem reindex_length (l : List SummaryRow) :
    ∀ i, (reindex l i).length = l.length := by
  induction l with
  | nil => intro i; rfl
  | cons a as ih => intro i; simp [reindex, ih]

theorem reindex_map_strip (l : List SummaryRow) :
    ∀ i, (reindex l i).map stripRank = l.map stripRank := by
  induction l with
  | nil => intro i; rfl
  | cons a as ih => intro i; simp [reindex, ih, stripRank]

theorem reindex_rank (l : List SummaryRow) :
    ∀ i, (reindex l i).map SummaryRow.rank = List.range' i l.length := by
  induction l with
  | nil => intro i; rfl
  | cons a as ih => intro i; simp [reindex, ih, List.range'_succ]

theorem mem_reindex {l : List SummaryRow} {i : Nat} {r : SummaryRow}
    (h : r ∈ reindex l i) : ∃ v ∈ l, stripRank r = stripRank v := by
  have h2 := List.mem_map_of_mem stripRank h
  rw [reindex_map_strip, List.mem_map] at h2
  obtain ⟨v, hv, he⟩ := h2
  exact ⟨v, hv, he.symm⟩

theorem map_country_reindex (l : List SummaryRow) (i : Nat) :
    (reindex l i).map SummaryRow.country = l.map SummaryRow.country := by
  have h := congrArg (List.map Prod.fst) (reindex_map_strip l i)
  rw [List.map_map, List.map_map] at h
  exact h

theorem pairwise_rowGE_reindex {l : List SummaryRow} {i : Nat}
    (h : l.Pairwise rowGE) : (reindex l i).Pairwise rowGE := by
  have h2 : (l.map stripRank).Pairwise (fun x y => mgeB x.2.1 y.2.1 = true) := by
    rw [List.pairwise_map]
    exact h
  rw [← reindex_map_strip l i, List.pairwise_map] at h2
  exact h2

/-! ### Claim C1: the ranked summary table -/

/-- C1: on every non-empty combined dataset carrying the `GHI` and
`Country` columns, `get_top_regions_table` produces one row per distinct
country label, whose mean/median/variance entries are exactly the pandas
aggregates of that country's `GHI` values; the rows are sorted descending
by mean (missing means last), and the `Rank` column is `1, ..., N` in that
order.  The witness instantiates the spec's example: countries `X`
(mean 500) and `Y` (mean 300) receive ranks 1 and 2. -/
theorem get_top_regions_table_spec (df : DataFrame)
    (h1 : df.isEmpty = false) (h2 : "GHI" ∈ df.cols) (h3 : "Country" ∈ df.cols) :
    (∀ r ∈ get_top_regions_table df,
        r.country ∈ dfLabels df
        ∧ r.mean = meanQ (groupVals df r.country)
        ∧ r.med = medianQ (groupVals df r.country)
        ∧ r.varS = varQ (groupVals df r.country))
    ∧ (∀ c ∈ dfLabels df, ∃ r ∈ get_top_regions_table df, r.country = c)
    ∧ (get_top_regions_table df).Pairwise rowGE
    ∧ (get_top_regions_table df).map SummaryRow.rank =
        List.range' 1 (get_top_regions_table df).length := by
  have hguard : ¬(df.isEmpty = true ∨ "GHI" ∉ df.cols ∨ "Country" ∉ df.cols) := by
    push_neg
    exact ⟨by simp [h1], h2, h3⟩
  have hout : get_top_regions_table df =
      reindex ((summaryRows df).insertionSort rowGE) 1 := by
    unfold get_top_regions_table
    rw [if_neg hguard]
  refine ⟨?_, ?_, ?_, ?_⟩
  · -- every output row is the aggregate of its own country group
    intro r hr
    rw [hout] at hr
    obtain ⟨v, hv, hstrip⟩ := mem_reindex hr
    rw [List.mem_insertionSort] at hv
    unfold summaryRows at hv
    rw [List.mem_map] at hv
    obtain ⟨c, hc, rfl⟩ := hv
    rw [List.mem_insertionSort] at hc
    have hcomp : r.country = c ∧ r.mean = meanQ (groupVals df c)
        ∧ r.med = medianQ (groupVals df c) ∧ r.varS = varQ (groupVals df c) := by
      simpa [stripRank, mkSummaryRow, Prod.ext_iff] using hstrip
    obtain ⟨e1, e2, e3, e4⟩ := hcomp
    rw [e1]
    exact ⟨hc, e2, e3, e4⟩
  · -- every country label has an output row
    intro c hc
    have hc2 : c ∈ ((summaryRows df).insertionSort rowGE).map SummaryRow.country := by
      rw [List.mem_map]
      refine ⟨mkSummaryRow df c, ?_, rfl⟩
      rw [List.mem_insertionSort]
      unfold summaryRows
      exact List.mem_map_of_mem _ ((List.mem_insertionSort _).mpr hc)
    rw [← map_country_reindex _ 1, List.mem_map] at hc2
    obtain ⟨r, hr, hrc⟩ := hc2
    exact ⟨r, by rw [hout]; exact hr, hrc⟩
  · -- descending by mean, missing means last
    rw [hout]
    exact pairwise_rowGE_reindex (List.sorted_insertionSort rowGE (summaryRows df))
  · -- ranks are 1..N in sorted order
    rw [hout, reindex_length]
    exact reindex_rank _ 1

theorem get_top_regions_table_spec_witness :
    (dfXY.isEmpty = false ∧ "GHI" ∈ dfXY.cols ∧ "Country" ∈ dfXY.cols)
    ∧ ((∀ r ∈ get_top_regions_table dfXY,
          r.country ∈ dfLabels dfXY
          ∧ r.mean = meanQ (groupVals dfXY r.country)
          ∧ r.med = medianQ (groupVals dfXY r.country)
          ∧ r.varS = varQ (groupVals dfXY r.country))
      ∧ (∀ c ∈ dfLabels dfXY, ∃ r ∈ get_top_regions_table dfXY, r.country = c)
      ∧ (get_top_regions_table dfXY).Pairwise rowGE
      ∧ (get_top_regions_table dfXY).map SummaryRow.rank =
          List.range' 1 (get_top_regions_table dfXY).length)
    ∧ (get_top_regions_table dfXY).map (fun r => (r.country, r.rank)) =
        [("X", 1), ("Y", 2)] :=
  ⟨⟨by decide, by decide, by decide⟩,
   get_top_regions_table_spec dfXY (by decide) (by decide) (by decide),
   by
    have hGC : ¬("GHI" = "Country") := by decide
    have hYX : ¬("Y" = "X") := by decide
    have hXY2 : ¬("X" = "Y") := by decide
    have hs : strLe "X" "Y" = true := by decide
    simp only [get_top_regions_table, summaryRows, dfLabels, labelOf, Row.get,
      getCell, dfXY, mkSummaryRow, groupVals, meanQ, medianQ, varQ, Row.getNum,
      dedupKeys, rowGE, mgeB, reindex, DataFrame.isEmpty, hGC, hYX, hXY2, hs,
      List.insertionSort, List.orderedInsert, List.filter, List.filterMap,
      List.map, List.sum_cons, List.sum_nil, List.length, List.mem_cons,
      List.mem_singleton, List.not_mem_nil, if_true, if_false, ite_true,
      ite_false, eq_self_iff_true, not_false_iff, decide_eq_true_eq]
    norm_num [reindex]⟩
